import Mathlib

/-!
Verification of the LakeB2B Social Post Generator logo-compositing pipeline.

The definitions below are a shallow embedding of the TypeScript source:
* `calculateLogoPlacement`, `addLogoOverlay`, `getLogoPath`, `loadImage`
  from `src/utils/server/imageProcessor.ts`;
* the black/white pixel transform from `src/contexts/AuthContext.tsx`;
* the generate-image HTTP handler validation chain;
* the `ApiClient` circuit breaker.

JavaScript floating-point arithmetic is modelled over `ℚ`; `Math.round`
(round half toward positive infinity) is modelled by `jsRound`.
-/

/-- JavaScript `Math.round`: rounds half toward positive infinity,
`Math.round q = ⌊q + 1/2⌋`. -/
def jsRound (q : ℚ) : ℤ := ⌊q + 1/2⌋

/-- Return type of `calculateLogoPlacement` (interface `LogoPlacement` in
`imageProcessor.ts`): integer pixel box after `Math.round`. -/
structure LogoPlacement where
  x : ℤ
  y : ℤ
  width : ℤ
  height : ℤ
deriving Repr, DecidableEq

/-- `imageProcessor.ts` line 80: `Math.max(200, imageWidth * (logoSize / 100))`. -/
def scaledWidthQ (imageWidth logoSize : ℚ) : ℚ :=
  max 200 (imageWidth * (logoSize / 100))

/-- `imageProcessor.ts` line 81: `(logoHeight / logoWidth) * scaledWidth`. -/
def scaledHeightQ (imageWidth logoWidth logoHeight logoSize : ℚ) : ℚ :=
  (logoHeight / logoWidth) * scaledWidthQ imageWidth logoSize

/-- `calculateLogoPlacement` from `imageProcessor.ts` lines 71–107.
The `switch` on `position` has cases `bottom-right`, `top-right`, and
`bottom-left`/`default` sharing one branch; all four outputs go through
`Math.round`. -/
def calculateLogoPlacement (imageWidth imageHeight logoWidth logoHeight : ℚ)
    (position : String) (logoSize : ℚ) : LogoPlacement :=
  let margin : ℚ := 20
  let scaledWidth := scaledWidthQ imageWidth logoSize
  let scaledHeight := scaledHeightQ imageWidth logoWidth logoHeight logoSize
  let xy : ℚ × ℚ :=
    if position = "bottom-right" then
      (imageWidth - scaledWidth - margin, imageHeight - scaledHeight - margin)
    else if position = "top-right" then
      (imageWidth - scaledWidth - margin, margin)
    else
      (margin, imageHeight - scaledHeight - margin)
  { x := jsRound xy.1
    y := jsRound xy.2
    width := jsRound scaledWidth
    height := jsRound scaledHeight }

/-- `jsRound` of an integer is itself. -/
theorem jsRound_intCast (n : ℤ) : jsRound (n : ℚ) = n := by
  unfold jsRound
  rw [Int.floor_int_add]
  norm_num

theorem jsRound_twenty : jsRound 20 = 20 := by
  have h := jsRound_intCast 20
  norm_num at h
  exact h

theorem jsRound_le_half (q : ℚ) : (jsRound q : ℚ) ≤ q + 1/2 :=
  Int.floor_le _

theorem half_lt_jsRound (q : ℚ) : q + 1/2 < (jsRound q : ℚ) + 1 :=
  Int.lt_floor_add_one _

/-- `jsRound` is negative exactly when the argument is below `-1/2`. -/
theorem jsRound_neg_iff (q : ℚ) : jsRound q < 0 ↔ q + 1/2 < 0 := by
  unfold jsRound
  rw [Int.floor_lt]
  norm_num

/-- Evaluating `calculateLogoPlacement` on the `bottom-left` branch. -/
theorem placement_bottomLeft (W H lw lh p : ℚ) :
    calculateLogoPlacement W H lw lh "bottom-left" p =
      { x := jsRound 20
        y := jsRound (H - scaledHeightQ W lw lh p - 20)
        width := jsRound (scaledWidthQ W p)
        height := jsRound (scaledHeightQ W lw lh p) } := rfl

/-- Evaluating `calculateLogoPlacement` on the `bottom-right` branch. -/
theorem placement_bottomRight (W H lw lh p : ℚ) :
    calculateLogoPlacement W H lw lh "bottom-right" p =
      { x := jsRound (W - scaledWidthQ W p - 20)
        y := jsRound (H - scaledHeightQ W lw lh p - 20)
        width := jsRound (scaledWidthQ W p)
        height := jsRound (scaledHeightQ W lw lh p) } := rfl

/-- Evaluating `calculateLogoPlacement` on the `top-right` branch. -/
theorem placement_topRight (W H lw lh p : ℚ) :
    calculateLogoPlacement W H lw lh "top-right" p =
      { x := jsRound (W - scaledWidthQ W p - 20)
        y := jsRound 20
        width := jsRound (scaledWidthQ W p)
        height := jsRound (scaledHeightQ W lw lh p) } := rfl

/-- The `switch` default: any position other than `bottom-right` and
`top-right` takes the `bottom-left` branch. -/
theorem placement_default (W H lw lh p : ℚ) (position : String)
    (h1 : position ≠ "bottom-right") (h2 : position ≠ "top-right") :
    calculateLogoPlacement W H lw lh position p =
      calculateLogoPlacement W H lw lh "bottom-left" p := by
  unfold calculateLogoPlacement
  simp only [h1, h2, if_false, ite_false]
  rfl

/-- C1: for valid inputs and each of the three corners, the Placement
Calculator returns, with margin 20: `bottom-left` gives x = 20 and
y = round(baseHeight − scaledHeight − 20); `bottom-right` gives
x = round(baseWidth − scaledWidth − 20) and the same y; `top-right` gives
the same x and y = 20; width and height are the rounded scaled dimensions;
and for `bottom-right`, x + width + 20 equals baseWidth within 1px, while
`bottom-left` / `top-right` have a coordinate exactly equal to 20. -/
theorem c1_corner_placement (W H lw lh p : ℚ)
    (hW : 0 < W) (hH : 0 < H) (hlw : 0 < lw) (hlh : 0 < lh)
    (hp1 : 10 ≤ p) (hp2 : p ≤ 100) :
    ((calculateLogoPlacement W H lw lh "bottom-left" p).x = 20 ∧
     (calculateLogoPlacement W H lw lh "bottom-left" p).y =
       jsRound (H - scaledHeightQ W lw lh p - 20)) ∧
    ((calculateLogoPlacement W H lw lh "bottom-right" p).x =
       jsRound (W - scaledWidthQ W p - 20) ∧
     (calculateLogoPlacement W H lw lh "bottom-right" p).y =
       jsRound (H - scaledHeightQ W lw lh p - 20)) ∧
    ((calculateLogoPlacement W H lw lh "top-right" p).x =
       jsRound (W - scaledWidthQ W p - 20) ∧
     (calculateLogoPlacement W H lw lh "top-right" p).y = 20) ∧
    (∀ position : String,
      (calculateLogoPlacement W H lw lh position p).width =
        jsRound (scaledWidthQ W p) ∧
      (calculateLogoPlacement W H lw lh position p).height =
        jsRound (scaledHeightQ W lw lh p)) ∧
    |((calculateLogoPlacement W H lw lh "bottom-right" p).x +
        (calculateLogoPlacement W H lw lh "bottom-right" p).width + 20 : ℚ) - W|
      ≤ 1 := by
  refine ⟨⟨?_, ?_⟩, ⟨?_, ?_⟩, ⟨?_, ?_⟩, ?_, ?_⟩
  · rw [placement_bottomLeft]; exact jsRound_twenty
  · rw [placement_bottomLeft]
  · rw [placement_bottomRight]
  · rw [placement_bottomRight]
  · rw [placement_topRight]
  · rw [placement_topRight]; exact jsRound_twenty
  · intro position
    constructor
    · unfold calculateLogoPlacement
      split <;> rfl
    · unfold calculateLogoPlacement
      split <;> rfl
  · rw [placement_bottomRight]
    set s := scaledWidthQ W p with hs
    have h1 : (jsRound (W - s - 20) : ℚ) ≤ (W - s - 20) + 1/2 := jsRound_le_half _
    have h2 : (W - s - 20) + 1/2 < (jsRound (W - s - 20) : ℚ) + 1 := half_lt_jsRound _
    have h3 : (jsRound s : ℚ) ≤ s + 1/2 := jsRound_le_half _
    have h4 : s + 1/2 < (jsRound s : ℚ) + 1 := half_lt_jsRound _
    rw [abs_le]
    constructor <;> push_cast <;> linarith

/-- C1 witness at base 1080×1080, logo 200×100, size 35%. -/
theorem c1_corner_placement_witness :
    ((calculateLogoPlacement 1080 1080 200 100 "bottom-left" 35).x = 20 ∧
     (calculateLogoPlacement 1080 1080 200 100 "bottom-left" 35).y =
       jsRound (1080 - scaledHeightQ 1080 200 100 35 - 20)) ∧
    ((calculateLogoPlacement 1080 1080 200 100 "bottom-right" 35).x =
       jsRound (1080 - scaledWidthQ 1080 35 - 20) ∧
     (calculateLogoPlacement 1080 1080 200 100 "bottom-right" 35).y =
       jsRound (1080 - scaledHeightQ 1080 200 100 35 - 20)) ∧
    ((calculateLogoPlacement 1080 1080 200 100 "top-right" 35).x =
       jsRound (1080 - scaledWidthQ 1080 35 - 20) ∧
     (calculateLogoPlacement 1080 1080 200 100 "top-right" 35).y = 20) ∧
    (∀ position : String,
      (calculateLogoPlacement 1080 1080 200 100 position 35).width =
        jsRound (scaledWidthQ 1080 35) ∧
      (calculateLogoPlacement 1080 1080 200 100 position 35).height =
        jsRound (scaledHeightQ 1080 200 100 35)) ∧
    |((calculateLogoPlacement 1080 1080 200 100 "bottom-right" 35).x +
        (calculateLogoPlacement 1080 1080 200 100 "bottom-right" 35).width + 20 : ℚ)
      - 1080| ≤ 1 :=
  c1_corner_placement 1080 1080 200 100 35 (by norm_num) (by norm_num)
    (by norm_num) (by norm_num) (by norm_num) (by norm_num)

/-- The scaled width never falls below the 200px floor. -/
theorem scaledWidthQ_ge (W p : ℚ) : 200 ≤ scaledWidthQ W p :=
  le_max_left _ _

/-- C2: scaledWidth = max(200, baseWidth × sizePercent/100) and
scaledHeight = scaledWidth × (logoNaturalHeight / logoNaturalWidth); the
ratio scaledHeight / scaledWidth equals the natural aspect ratio exactly
(hence within any rounding tolerance), scaledWidth never falls below 200,
and for sizePercent = 10 on a 1080px-wide base image scaledWidth = 200. -/
theorem c2_scaled_dimensions (W lw lh p : ℚ)
    (hW : 0 < W) (hlw : 0 < lw) (hlh : 0 < lh)
    (hp1 : 10 ≤ p) (hp2 : p ≤ 100) :
    scaledWidthQ W p = max 200 (W * (p / 100)) ∧
    scaledHeightQ W lw lh p = scaledWidthQ W p * (lh / lw) ∧
    scaledHeightQ W lw lh p / scaledWidthQ W p = lh / lw ∧
    200 ≤ scaledWidthQ W p ∧
    scaledWidthQ 1080 10 = 200 := by
  have hne : scaledWidthQ W p ≠ 0 := by
    have := scaledWidthQ_ge W p
    positivity
  refine ⟨rfl, by rw [scaledHeightQ]; ring, ?_, scaledWidthQ_ge W p, ?_⟩
  · rw [scaledHeightQ]
    exact mul_div_cancel_right₀ _ hne
  · rw [scaledWidthQ]
    norm_num

/-- C2 witness at base width 1080, logo 200×100, size 10%. -/
theorem c2_scaled_dimensions_witness :
    scaledWidthQ 1080 10 = max 200 (1080 * (10 / 100)) ∧
    scaledHeightQ 1080 200 100 10 = scaledWidthQ 1080 10 * (100 / 200) ∧
    scaledHeightQ 1080 200 100 10 / scaledWidthQ 1080 10 = 100 / 200 ∧
    (200 : ℚ) ≤ scaledWidthQ 1080 10 ∧
    scaledWidthQ 1080 10 = 200 :=
  c2_scaled_dimensions 1080 200 100 10 (by norm_num) (by norm_num)
    (by norm_num) (by norm_num) (by norm_num)

/-- C3 counterexample: on a 100×100 base image with a 100×100 logo at 35%
and position `bottom-right`, the scaled width clamps to 200 and the
returned x is −120, which is negative — the code performs no clamping. -/
theorem c3_counterexample :
    (calculateLogoPlacement 100 100 100 100 "bottom-right" 35).x = -120 ∧
    (calculateLogoPlacement 100 100 100 100 "bottom-right" 35).x < 0 := by
  have hs : scaledWidthQ 100 35 = 200 := by
    rw [scaledWidthQ]
    norm_num [max_def]
  have hx : (calculateLogoPlacement 100 100 100 100 "bottom-right" 35).x = -120 := by
    rw [placement_bottomRight, hs]
    unfold jsRound
    norm_num
  exact ⟨hx, by rw [hx]; norm_num⟩

/-- C3 amended: the x and y fields of the returned PlacementBox are not
clamped; for `bottom-right` the x field is negative whenever
scaledWidth + margin exceeds baseWidth by more than half a pixel (the
value is returned exactly as rounded, with no floor at 0). -/
theorem c3_amended_no_clamping (W H lw lh p : ℚ)
    (hbig : W + 1/2 < scaledWidthQ W p + 20) :
    (calculateLogoPlacement W H lw lh "bottom-right" p).x < 0 := by
  rw [placement_bottomRight]
  rw [jsRound_neg_iff]
  linarith

/-- C3 amended witness at the counterexample input. -/
theorem c3_amended_no_clamping_witness :
    (calculateLogoPlacement 100 100 100 100 "bottom-right" 35).x < 0 :=
  c3_amended_no_clamping 100 100 100 100 35 (by norm_num [scaledWidthQ])

/-- C10: every position other than `bottom-right` and `top-right`
(including `top-left` and any unrecognized string) silently falls back to
the bottom-left placement: x = 20 and y = round(baseHeight − scaledHeight
− 20), identical to the `bottom-left` result. -/
theorem c10_default_fallback (W H lw lh p : ℚ) (position : String)
    (h1 : position ≠ "bottom-right") (h2 : position ≠ "top-right") :
    calculateLogoPlacement W H lw lh position p =
      calculateLogoPlacement W H lw lh "bottom-left" p ∧
    (calculateLogoPlacement W H lw lh position p).x = 20 ∧
    (calculateLogoPlacement W H lw lh position p).y =
      jsRound (H - scaledHeightQ W lw lh p - 20) := by
  have hd := placement_default W H lw lh p position h1 h2
  refine ⟨hd, ?_, ?_⟩
  · rw [hd, placement_bottomLeft]; exact jsRound_twenty
  · rw [hd, placement_bottomLeft]

/-- C10 witness: the unexposed `top-left` value falls back to bottom-left. -/
theorem c10_default_fallback_witness :
    calculateLogoPlacement 1080 1080 200 100 "top-left" 35 =
      calculateLogoPlacement 1080 1080 200 100 "bottom-left" 35 ∧
    (calculateLogoPlacement 1080 1080 200 100 "top-left" 35).x = 20 ∧
    (calculateLogoPlacement 1080 1080 200 100 "top-left" 35).y =
      jsRound (1080 - scaledHeightQ 1080 200 100 35 - 20) :=
  c10_default_fallback 1080 1080 200 100 35 "top-left"
    (by decide) (by decide)

/-- One RGBA pixel, 8-bit channels. -/
structure Pixel where
  r : ℕ
  g : ℕ
  b : ℕ
  a : ℕ
deriving Repr, DecidableEq

/-- Colorfulness measure from `AuthContext.tsx` lines 679 and 687:
`Math.abs(r - g) + Math.abs(g - b) + Math.abs(b - r)`. -/
def colorfulness (p : Pixel) : ℤ :=
  |(p.r : ℤ) - p.g| + |(p.g : ℤ) - p.b| + |(p.b : ℤ) - p.r|

/-- Perceptual luminance from `AuthContext.tsx` line 668:
`Math.round(0.299 * r + 0.587 * g + 0.114 * b)`. -/
def grayLuminance (p : Pixel) : ℤ :=
  jsRound ((299 * p.r + 587 * p.g + 114 * p.b : ℚ) / 1000)

/-- The black/white pixel decision from `AuthContext.tsx` lines 653–694:
pixels with alpha below 10 get white RGB (the loop `continue`s before the
threshold logic and never writes the alpha byte); otherwise the two-rule
luminance/colorfulness threshold picks pure black or pure white RGB, again
leaving the alpha byte untouched. -/
def bwPixel (p : Pixel) : Pixel :=
  if p.a < 10 then
    { p with r := 255, g := 255, b := 255 }
  else
    let gray := grayLuminance p
    let bw : ℕ :=
      if gray < 100 then 0
      else if 200 < gray then
        if 100 < colorfulness p then 0 else 255
      else
        if 50 < colorfulness p then 0 else 255
    { p with r := bw, g := bw, b := bw }

/-- Style Transform stage: the `newyork-cartoon` style applies the
black/white filter to every pixel of the logo layer; every other style
leaves the logo pixels untouched (`AuthContext.tsx` lines 633 and 704–707). -/
def styleTransform (style : String) (img : List Pixel) : List Pixel :=
  if style = "newyork-cartoon" then img.map bwPixel else img

/-- C5 counterexample: a fully transparent black pixel is mapped to white
RGB but its alpha stays 0 — it is not forced to opaque (alpha 255), so the
transform does not produce "opaque white" for near-zero-alpha pixels. -/
theorem c5_counterexample :
    styleTransform "newyork-cartoon" [Pixel.mk 0 0 0 0] =
      [Pixel.mk 255 255 255 0] ∧
    ¬ (styleTransform "newyork-cartoon" [Pixel.mk 0 0 0 0]).map Pixel.a
        = [255] := by
  constructor <;> decide

/-- C5 amended: under `newyork-cartoon` every pixel's RGB becomes pure
black or pure white via the perceptual-luminance value together with the
colorfulness check (saturated bright pixels go to black), pixels with
near-zero alpha get white RGB, and the alpha channel of every pixel is
left unchanged (near-zero-alpha pixels become white but stay transparent,
not opaque); every other style is the identity on the logo layer. -/
theorem c5_amended_bw_transform (style : String) (p : Pixel)
    (img : List Pixel) :
    (bwPixel p).a = p.a ∧
    ((bwPixel p).r = (bwPixel p).g ∧ (bwPixel p).g = (bwPixel p).b) ∧
    ((bwPixel p).r = 0 ∨ (bwPixel p).r = 255) ∧
    (p.a < 10 → (bwPixel p).r = 255) ∧
    (¬ p.a < 10 → grayLuminance p < 100 → (bwPixel p).r = 0) ∧
    (¬ p.a < 10 → 200 < grayLuminance p → 100 < colorfulness p →
      (bwPixel p).r = 0) ∧
    (¬ p.a < 10 → 200 < grayLuminance p → ¬ 100 < colorfulness p →
      (bwPixel p).r = 255) ∧
    (styleTransform "newyork-cartoon" img = img.map bwPixel) ∧
    (style ≠ "newyork-cartoon" → styleTransform style img = img) := by
  refine ⟨?_, ?_, ?_, ?_, ?_, ?_, ?_, ?_, ?_⟩
  · unfold bwPixel; split <;> rfl
  · unfold bwPixel; split <;> simp
  · unfold bwPixel
    split
    · right; rfl
    · simp only []
      split
      · left; rfl
      · split
        · split
          · left; rfl
          · right; rfl
        · split
          · left; rfl
          · right; rfl
  · intro h; unfold bwPixel; rw [if_pos h]
  · intro h hg; unfold bwPixel; rw [if_neg h]
    simp only [if_pos hg]
  · intro h hg hc; unfold bwPixel; rw [if_neg h]
    have hg' : ¬ grayLuminance p < 100 := by omega
    simp only [if_neg hg', if_pos hg, if_pos hc]
  · intro h hg hc; unfold bwPixel; rw [if_neg h]
    have hg' : ¬ grayLuminance p < 100 := by omega
    simp only [if_neg hg', if_pos hg, if_neg hc]
  · unfold styleTransform; rw [if_pos rfl]
  · intro h; unfold styleTransform; rw [if_neg h]

/-- C5 amended witness: concrete pixel and a non-cartoon style. -/
theorem c5_amended_bw_transform_witness :
    (bwPixel (Pixel.mk 0 0 0 0)).a = (Pixel.mk 0 0 0 0).a ∧
    ((bwPixel (Pixel.mk 0 0 0 0)).r = (bwPixel (Pixel.mk 0 0 0 0)).g ∧
     (bwPixel (Pixel.mk 0 0 0 0)).g = (bwPixel (Pixel.mk 0 0 0 0)).b) ∧
    ((bwPixel (Pixel.mk 0 0 0 0)).r = 0 ∨
     (bwPixel (Pixel.mk 0 0 0 0)).r = 255) ∧
    ((Pixel.mk 0 0 0 0).a < 10 → (bwPixel (Pixel.mk 0 0 0 0)).r = 255) ∧
    (¬ (Pixel.mk 0 0 0 0).a < 10 → grayLuminance (Pixel.mk 0 0 0 0) < 100 →
      (bwPixel (Pixel.mk 0 0 0 0)).r = 0) ∧
    (¬ (Pixel.mk 0 0 0 0).a < 10 → 200 < grayLuminance (Pixel.mk 0 0 0 0) →
      100 < colorfulness (Pixel.mk 0 0 0 0) →
      (bwPixel (Pixel.mk 0 0 0 0)).r = 0) ∧
    (¬ (Pixel.mk 0 0 0 0).a < 10 → 200 < grayLuminance (Pixel.mk 0 0 0 0) →
      ¬ 100 < colorfulness (Pixel.mk 0 0 0 0) →
      (bwPixel (Pixel.mk 0 0 0 0)).r = 255) ∧
    (styleTransform "newyork-cartoon" [Pixel.mk 9 9 9 200] =
      [Pixel.mk 9 9 9 200].map bwPixel) ∧
    ("isometric" ≠ "newyork-cartoon" →
      styleTransform "isometric" [Pixel.mk 9 9 9 200] =
        [Pixel.mk 9 9 9 200]) :=
  c5_amended_bw_transform "isometric" (Pixel.mk 0 0 0 0) [Pixel.mk 9 9 9 200]

/-- One pixel of the opacity loop (`imageProcessor.ts` line 194):
`data[i] = Math.round(data[i] * opacityMultiplier)` on the alpha byte,
with `opacityMultiplier = logoOpacity / 100`; R, G, B bytes untouched. -/
def applyOpacityPixel (logoOpacity : ℚ) (p : Pixel) : Pixel :=
  { p with a := (jsRound (p.a * (logoOpacity / 100))).toNat }

/-- Opacity Stage (`imageProcessor.ts` lines 182–206): the alpha loop runs
only when `logoOpacity < 100`; otherwise `compositeInput` is the processed
logo buffer unchanged. -/
def opacityStage (logoOpacity : ℚ) (img : List Pixel) : List Pixel :=
  if logoOpacity < 100 then img.map (applyOpacityPixel logoOpacity) else img

/-- C7: at `logoOpacity = 100` the Opacity Stage is a byte-identical no-op
short-circuit; for every `logoOpacity ∈ [0, 100)` it replaces each pixel's
alpha `a` by `round(a * logoOpacity / 100)`, which lands in the valid
0–255 integer range, while leaving every R, G, B byte unchanged. -/
theorem c7_opacity_stage (logoOpacity : ℚ) (p : Pixel) (img : List Pixel)
    (h0 : 0 ≤ logoOpacity) (h1 : logoOpacity < 100) (ha : p.a ≤ 255) :
    opacityStage 100 img = img ∧
    opacityStage logoOpacity img = img.map (applyOpacityPixel logoOpacity) ∧
    (applyOpacityPixel logoOpacity p).r = p.r ∧
    (applyOpacityPixel logoOpacity p).g = p.g ∧
    (applyOpacityPixel logoOpacity p).b = p.b ∧
    ((applyOpacityPixel logoOpacity p).a : ℤ) =
      jsRound (p.a * (logoOpacity / 100)) ∧
    (applyOpacityPixel logoOpacity p).a ≤ 255 := by
  have hnn : (0 : ℚ) ≤ p.a * (logoOpacity / 100) := by positivity
  have hfl : 0 ≤ jsRound (p.a * (logoOpacity / 100)) := by
    unfold jsRound
    rw [Int.le_floor]
    push_cast
    linarith
  have hub : jsRound (p.a * (logoOpacity / 100)) ≤ 255 := by
    have hle : (jsRound (p.a * (logoOpacity / 100)) : ℚ) ≤
        p.a * (logoOpacity / 100) + 1/2 := jsRound_le_half _
    have harg : p.a * (logoOpacity / 100) < 255 := by
      have hcast : (p.a : ℚ) ≤ 255 := by exact_mod_cast ha
      have h255 : (0 : ℚ) ≤ 255 := by norm_num
      calc p.a * (logoOpacity / 100) ≤ 255 * (logoOpacity / 100) := by
            apply mul_le_mul_of_nonneg_right hcast
            positivity
        _ < 255 := by linarith
    have h256 : (jsRound (p.a * (logoOpacity / 100)) : ℚ) < 256 := by linarith
    have h256' : jsRound (p.a * (logoOpacity / 100)) < 256 := by
      exact_mod_cast h256
    omega
  refine ⟨?_, ?_, rfl, rfl, rfl, ?_, ?_⟩
  · unfold opacityStage
    rw [if_neg (by norm_num)]
  · unfold opacityStage
    rw [if_pos h1]
  · unfold applyOpacityPixel
    simp only []
    exact Int.toNat_of_nonneg hfl
  · unfold applyOpacityPixel
    simp only []
    omega

/-- C7 witness: opacity 85% on an opaque pixel gives alpha round(216.75) = 217. -/
theorem c7_opacity_stage_witness :
    opacityStage 100 [Pixel.mk 10 20 30 255] = [Pixel.mk 10 20 30 255] ∧
    opacityStage 85 [Pixel.mk 10 20 30 255] =
      [Pixel.mk 10 20 30 255].map (applyOpacityPixel 85) ∧
    (applyOpacityPixel 85 (Pixel.mk 10 20 30 255)).r = 10 ∧
    (applyOpacityPixel 85 (Pixel.mk 10 20 30 255)).g = 20 ∧
    (applyOpacityPixel 85 (Pixel.mk 10 20 30 255)).b = 30 ∧
    ((applyOpacityPixel 85 (Pixel.mk 10 20 30 255)).a : ℤ) =
      jsRound ((255 : ℕ) * ((85 : ℚ) / 100)) ∧
    (applyOpacityPixel 85 (Pixel.mk 10 20 30 255)).a ≤ 255 :=
  c7_opacity_stage 85 (Pixel.mk 10 20 30 255) [Pixel.mk 10 20 30 255]
    (by norm_num) (by norm_num) (by norm_num)

/-- Blend-mode selection (`imageProcessor.ts` line 216):
`blend: style === 'newyork-cartoon' ? 'multiply' : 'over'`. -/
def blendMode (style : String) : String :=
  if style = "newyork-cartoon" then "multiply" else "over"

/-- Modelled from the spec: the `multiply` blend applied by the external
sharp library during compositing. Per the glossary ("multiply = darkens by
multiplying channel values") and standard alpha compositing over an opaque
base image, one output channel is the alpha-weighted mix of
`base * logo / 255` and `base`; channel and alpha values range over 0–255. -/
def multiplyComposite (base logoC logoA : ℚ) : ℚ :=
  (logoA / 255) * (base * logoC / 255) + (1 - logoA / 255) * base

/-- C6: the Compositor selects `multiply` exactly for `newyork-cartoon`
and `over` for every other style, and under `multiply` each composited
channel value is less than or equal to the corresponding base-image
channel value (multiply can only darken an opaque base). -/
theorem c6_blend_selection (style : String) (base logoC logoA : ℚ)
    (hs : style ≠ "newyork-cartoon")
    (hb : 0 ≤ base) (hc0 : 0 ≤ logoC) (hc : logoC ≤ 255)
    (ha0 : 0 ≤ logoA) (ha : logoA ≤ 255) :
    blendMode "newyork-cartoon" = "multiply" ∧
    blendMode style = "over" ∧
    multiplyComposite base logoC logoA ≤ base := by
  refine ⟨rfl, ?_, ?_⟩
  · unfold blendMode
    rw [if_neg hs]
  · unfold multiplyComposite
    nlinarith [mul_nonneg (mul_nonneg hb ha0)
      (show (0 : ℚ) ≤ 255 - logoC by linarith)]

/-- C6 witness: style `isometric` gets `over`; a fully opaque black logo
pixel multiplied onto base value 100 gives 0 ≤ 100. -/
theorem c6_blend_selection_witness :
    blendMode "newyork-cartoon" = "multiply" ∧
    blendMode "isometric" = "over" ∧
    multiplyComposite 100 0 255 ≤ 100 :=
  c6_blend_selection "isometric" 100 0 255 (by decide) (by norm_num)
    (by norm_num) (by norm_num) (by norm_num) (by norm_num)

/-- A decoded byte buffer. -/
abbrev ByteBuf := List ℕ

/-- The source accepted by `loadImage` (`imageProcessor.ts` lines 31–50):
a `Buffer`, a `data:image/...;base64,` string, a remote URL, or a local
file path. -/
inductive ImageSource where
  | buffer (b : ByteBuf)
  | dataUrl (mime : String) (payload : String)
  | remoteUrl (u : String)
  | filePath (p : String)
deriving Repr, DecidableEq

/-- Options object of `addLogoOverlay` with the destructuring defaults of
`imageProcessor.ts` lines 117–123. -/
structure ImageProcessingOptions where
  style : String := "isometric"
  position : String := "bottom-left"
  logoSize : ℚ := 35
  logoOpacity : ℚ := 85
  logoRotation : ℚ := 0
deriving Repr

/-- The external world seen by `addLogoOverlay`: filesystem, network,
base64 codec, sharp metadata decoding, and the whole
resize/style/rotate/opacity/composite chain, modelled as deterministic
functions that may fail. -/
structure Env where
  fetch : String → Except String ByteBuf
  readFile : String → Except String ByteBuf
  fileExists : String → Bool
  decodeBase64 : String → ByteBuf
  encodeBase64 : ByteBuf → String
  metadata : ByteBuf → Except String (Option ℕ × Option ℕ)
  processAndComposite : ByteBuf → ByteBuf → LogoPlacement →
    ImageProcessingOptions → Except String ByteBuf

/-- `loadImage` (`imageProcessor.ts` lines 31–50). -/
def loadImage (env : Env) (source : ImageSource) : Except String ByteBuf :=
  match source with
  | .buffer b => .ok b
  | .dataUrl _ payload => .ok (env.decodeBase64 payload)
  | .remoteUrl u => env.fetch u
  | .filePath p => env.readFile p

def bwLogoPath : String := "public/logos/LakeB2B Logo BW.png"

def squareLogoPath : String := "public/logos/LakeB2B Logo Square.png"

/-- `getLogoPath` (`imageProcessor.ts` lines 55–66). -/
def getLogoPath (env : Env) (style : String) : String :=
  if style = "newyork-cartoon" ∧ env.fileExists bwLogoPath = true then
    bwLogoPath
  else squareLogoPath

/-- `data:image/png;base64,` wrapping of a buffer. -/
def wrapPng (env : Env) (buf : ByteBuf) : String :=
  "data:image/png;base64," ++ env.encodeBase64 buf

/-- The catch block of `addLogoOverlay` (`imageProcessor.ts` lines
224–232): a string source that starts with `data:image` is returned
verbatim; a buffer is wrapped; any other string source is re-loaded and
wrapped. -/
def overlayCatch (env : Env) (baseImage : ImageSource) :
    Except String String :=
  match baseImage with
  | .dataUrl mime payload =>
      .ok ("data:image/" ++ mime ++ ";base64," ++ payload)
  | .buffer b => .ok (wrapPng env b)
  | s => (loadImage env s).map (wrapPng env)

/-- `addLogoOverlay` (`imageProcessor.ts` lines 112–233): load the base
image, read metadata, resolve the logo path; if the logo file is missing
return the base image wrapped as a data URL; otherwise run the
resize/style/rotate/opacity/composite chain; any thrown error lands in
the catch block. -/
def addLogoOverlay (env : Env) (baseImage : ImageSource)
    (options : ImageProcessingOptions) : Except String String :=
  let tryResult : Except String String :=
    match loadImage env baseImage with
    | .error e => .error e
    | .ok baseImageBuffer =>
      match env.metadata baseImageBuffer with
      | .error e => .error e
      | .ok md =>
        let imageWidth : ℚ := ((md.1.getD 1080 : ℕ) : ℚ)
        let imageHeight : ℚ := ((md.2.getD 1080 : ℕ) : ℚ)
        let logoPath := getLogoPath env options.style
        if env.fileExists logoPath = false then
          .ok (wrapPng env baseImageBuffer)
        else
          match env.readFile logoPath with
          | .error e => .error e
          | .ok logoBuffer =>
            match env.metadata logoBuffer with
            | .error e => .error e
            | .ok lmd =>
              let logoWidth : ℚ := ((lmd.1.getD 200 : ℕ) : ℚ)
              let logoHeight : ℚ := ((lmd.2.getD 200 : ℕ) : ℚ)
              let placement := calculateLogoPlacement imageWidth imageHeight
                logoWidth logoHeight options.position options.logoSize
              match env.processAndComposite baseImageBuffer logoBuffer
                  placement options with
              | .error e => .error e
              | .ok finalImage => .ok (wrapPng env finalImage)
  match tryResult with
  | .ok s => .ok s
  | .error _ => overlayCatch env baseImage

/-- What the catch path produces for a successfully decodable base image:
the original inline string for a data-URL source, and the decoded buffer
wrapped as a PNG data URL otherwise. -/
def baseImageFallback (env : Env) (baseImage : ImageSource)
    (buf : ByteBuf) : String :=
  match baseImage with
  | .dataUrl mime payload => "data:image/" ++ mime ++ ";base64," ++ payload
  | _ => wrapPng env buf

/-- The catch block returns the base image as an inline data string when
the base image itself loads deterministically. -/
theorem overlayCatch_eq_fallback (env : Env) (baseImage : ImageSource)
    (buf : ByteBuf) (hload : loadImage env baseImage = .ok buf) :
    overlayCatch env baseImage = .ok (baseImageFallback env baseImage buf) := by
  cases baseImage with
  | buffer b =>
      simp only [loadImage, Except.ok.injEq] at hload
      simp [overlayCatch, baseImageFallback, hload]
  | dataUrl mime payload => rfl
  | remoteUrl u =>
      simp [overlayCatch, baseImageFallback, hload, Except.map]
  | filePath p =>
      simp [overlayCatch, baseImageFallback, hload, Except.map]

/-- C4: if the base image decodes, then (a) when the selected logo file is
absent from disk `addLogoOverlay` returns the decoded base image wrapped
as an inline data string, and (b) when the logo exists and loads but the
resize/style/rotate/opacity/composite chain fails, the call still returns
the unmodified base image as an inline data string — in both cases the
result is `.ok`, never a rejection. -/
theorem c4_graceful_degrade (env : Env) (baseImage : ImageSource)
    (options : ImageProcessingOptions) (buf : ByteBuf)
    (md : Option ℕ × Option ℕ)
    (hload : loadImage env baseImage = .ok buf)
    (hmd : env.metadata buf = .ok md) :
    (env.fileExists (getLogoPath env options.style) = false →
      addLogoOverlay env baseImage options = .ok (wrapPng env buf)) ∧
    (∀ logoBuf lmd errMsg,
      env.fileExists (getLogoPath env options.style) = true →
      env.readFile (getLogoPath env options.style) = .ok logoBuf →
      env.metadata logoBuf = .ok lmd →
      (∀ pl, env.processAndComposite buf logoBuf pl options = .error errMsg) →
      addLogoOverlay env baseImage options =
        .ok (baseImageFallback env baseImage buf)) := by
  constructor
  · intro hmiss
    unfold addLogoOverlay
    rw [hload]
    simp [hmd, hmiss]
  · intro logoBuf lmd errMsg hex hread hlmd hproc
    unfold addLogoOverlay
    rw [hload]
    simp only [hmd, hex, hread, hlmd, hproc]
    simp only [Bool.true_eq_false, if_false, ite_false, reduceCtorEq]
    exact overlayCatch_eq_fallback env baseImage buf hload

/-- C4 witness: a concrete environment whose processing chain always
fails still yields a successful data-URL result for a data-URL source. -/
theorem c4_graceful_degrade_witness :
    (let env : Env :=
      { fetch := fun _ => .error "network"
        readFile := fun _ => .ok [7]
        fileExists := fun _ => true
        decodeBase64 := fun _ => [1, 2, 3]
        encodeBase64 := fun _ => "AQID"
        metadata := fun _ => .ok (some 1080, some 1080)
        processAndComposite := fun _ _ _ _ => .error "sharp failed" }
     addLogoOverlay env (ImageSource.dataUrl "png" "AQID") {} =
       .ok (baseImageFallback env (ImageSource.dataUrl "png" "AQID")
         [1, 2, 3])) := by
  have h := c4_graceful_degrade
    { fetch := fun _ => .error "network"
      readFile := fun _ => .ok [7]
      fileExists := fun _ => true
      decodeBase64 := fun _ => [1, 2, 3]
      encodeBase64 := fun _ => "AQID"
      metadata := fun _ => .ok (some 1080, some 1080)
      processAndComposite := fun _ _ _ _ => .error "sharp failed" }
    (ImageSource.dataUrl "png" "AQID") {} [1, 2, 3] (some 1080, some 1080)
    rfl rfl
  exact h.2 [7] (some 1080, some 1080) "sharp failed" rfl rfl rfl
    (fun _ => rfl)

/-- A JSON value reaching the generate handler from the parsed request
body; `missing` stands for an absent field (undefined), which is what
triggers the destructuring defaults. JSON numbers are finite rationals. -/
inductive JsonValue where
  | str (s : String)
  | num (q : ℚ)
  | boolean (b : Bool)
  | nullV
  | missing
deriving Repr, DecidableEq

/-- JavaScript falsiness of a JSON value (`if (!prompt)`). -/
def JsonValue.falsy : JsonValue → Bool
  | .missing => true
  | .nullV => true
  | .boolean b => !b
  | .num q => q = 0
  | .str s => s = ""

/-- `typeof prompt !== 'string' || prompt.trim().length === 0`. -/
def JsonValue.isBlankOrNotString : JsonValue → Bool
  | .str s => s.trim.length = 0
  | _ => true

/-- `prompt.length` for the already-string-checked prompt. -/
def JsonValue.strLength : JsonValue → ℕ
  | .str s => s.length
  | _ => 0

def JsonValue.getStr : JsonValue → String
  | .str s => s
  | _ => ""

def JsonValue.getNum : JsonValue → ℚ
  | .num q => q
  | _ => 0

/-- Destructuring default: applied only when the field is undefined. -/
def withDefault (v d : JsonValue) : JsonValue :=
  match v with
  | .missing => d
  | v => v

/-- `Array.includes` on a string array with strict equality semantics. -/
def includesStr (l : List String) : JsonValue → Bool
  | .str s => l.contains s
  | _ => false

/-- `typeof x !== 'number' || x < lo || x > hi` is the rejection test; this
is the complementary validity test. -/
def numInRange (lo hi : ℚ) : JsonValue → Bool
  | .num q => decide (lo ≤ q) && decide (q ≤ hi)
  | _ => false

def validStyles : List String :=
  ["isometric", "newyork-cartoon", "minimalist-linkedin"]

def validPositions : List String :=
  ["bottom-left", "bottom-right", "top-right"]

/-- Parsed request body of the generate endpoint. -/
structure GenerateRequest where
  prompt : JsonValue := .missing
  style : JsonValue := .missing
  position : JsonValue := .missing
  logoSize : JsonValue := .missing
  logoOpacity : JsonValue := .missing
  logoRotation : JsonValue := .missing
deriving Repr, DecidableEq

/-- An error response `res.status(status).json({ error, code })`. -/
structure ErrorResponse where
  status : ℕ
  error : String
  code : Option String
deriving Repr, DecidableEq

/-- Handler outcome: either an error response sent before any pipeline
stage, or entry into the generation + overlay pipeline with the validated
field values. -/
inductive HandlerResult where
  | failure (r : ErrorResponse)
  | pipeline (prompt style position : String)
      (logoSize logoOpacity logoRot : ℚ)
deriving Repr, DecidableEq

def invokesPipeline : HandlerResult → Bool
  | .pipeline .. => true
  | .failure _ => false

/-- `const { style = 'isometric', ... } = req.body` destructuring. -/
def effStyle (req : GenerateRequest) : JsonValue :=
  withDefault req.style (.str "isometric")

def effPosition (req : GenerateRequest) : JsonValue :=
  withDefault req.position (.str "bottom-left")

def effLogoSize (req : GenerateRequest) : JsonValue :=
  withDefault req.logoSize (.num 35)

def effLogoOpacity (req : GenerateRequest) : JsonValue :=
  withDefault req.logoOpacity (.num 85)

def effLogoRot (req : GenerateRequest) : JsonValue :=
  withDefault req.logoRotation (.num 0)

/-- The generate-image handler validation chain (`part_011` lines 16–105):
destructuring defaults, prompt checks, style/position membership, numeric
range checks, then the API-key check, and only then the pipeline. -/
def handler (apiKeyConfigured : Bool) (req : GenerateRequest) :
    HandlerResult :=
  let style := effStyle req
  let position := effPosition req
  let logoSize := effLogoSize req
  let logoOpacity := effLogoOpacity req
  let logoRot := effLogoRot req
  if req.prompt.falsy = true then
    .failure ⟨400, "Prompt is required", some "MISSING_PROMPT"⟩
  else if req.prompt.isBlankOrNotString = true then
    .failure ⟨400, "Prompt must be a non-empty string", some "INVALID_PROMPT"⟩
  else if 500 < req.prompt.strLength then
    .failure ⟨400, "Prompt must be less than 500 characters",
      some "PROMPT_TOO_LONG"⟩
  else if includesStr validStyles style = false then
    .failure ⟨400, "Invalid style", some "INVALID_STYLE"⟩
  else if includesStr validPositions position = false then
    .failure ⟨400, "Invalid position", some "INVALID_POSITION"⟩
  else if numInRange 10 100 logoSize = false then
    .failure ⟨400, "Logo size must be a number between 10 and 100",
      some "INVALID_LOGO_SIZE"⟩
  else if numInRange 0 100 logoOpacity = false then
    .failure ⟨400, "Logo opacity must be a number between 0 and 100",
      some "INVALID_LOGO_OPACITY"⟩
  else if numInRange (-180) 180 logoRot = false then
    .failure ⟨400, "Logo rotation must be a number between -180 and 180",
      some "INVALID_LOGO_ROTATION"⟩
  else if apiKeyConfigured = false then
    .failure ⟨500, "Gemini API key not configured", none⟩
  else
    .pipeline req.prompt.getStr style.getStr position.getStr
      logoSize.getNum logoOpacity.getNum logoRot.getNum

/-- C8: whenever the effective style is outside the three valid styles, or
the effective position is outside the three valid corners, or logoSize is
not a number in [10,100], or logoOpacity is not a number in [0,100], or
logoRotation is not a number in [−180,180], the handler returns a 400
error object carrying an error message and a code, and the pipeline
(image generation and logo overlay) is never invoked. -/
theorem c8_validation_rejects (apiKeyConfigured : Bool)
    (req : GenerateRequest)
    (hbad :
      includesStr validStyles (effStyle req) = false ∨
      includesStr validPositions (effPosition req) = false ∨
      numInRange 10 100 (effLogoSize req) = false ∨
      numInRange 0 100 (effLogoOpacity req) = false ∨
      numInRange (-180) 180 (effLogoRot req) = false) :
    ∃ r : ErrorResponse,
      handler apiKeyConfigured req = .failure r ∧
      r.status = 400 ∧ r.code.isSome = true ∧
      invokesPipeline (handler apiKeyConfigured req) = false := by
  unfold handler
  dsimp only
  split_ifs with h1 h2 h3 h4 h5 h6 h7 h8 h9
  · exact ⟨_, rfl, rfl, rfl, rfl⟩
  · exact ⟨_, rfl, rfl, rfl, rfl⟩
  · exact ⟨_, rfl, rfl, rfl, rfl⟩
  · exact ⟨_, rfl, rfl, rfl, rfl⟩
  · exact ⟨_, rfl, rfl, rfl, rfl⟩
  · exact ⟨_, rfl, rfl, rfl, rfl⟩
  · exact ⟨_, rfl, rfl, rfl, rfl⟩
  · exact ⟨_, rfl, rfl, rfl, rfl⟩
  · simp only [Bool.not_eq_false] at h4 h5 h6 h7 h8
    rcases hbad with h | h | h | h | h <;> simp_all
  · simp only [Bool.not_eq_false] at h4 h5 h6 h7 h8
    rcases hbad with h | h | h | h | h <;> simp_all

/-- C8 witness: an unknown style value is rejected with a 400/INVALID_STYLE
error and the pipeline is not entered. -/
theorem c8_validation_rejects_witness :
    ∃ r : ErrorResponse,
      handler true { prompt := .str "hello", style := .str "vaporwave" }
          = .failure r ∧
      r.status = 400 ∧ r.code.isSome = true ∧
      invokesPipeline
          (handler true { prompt := .str "hello", style := .str "vaporwave" })
          = false :=
  c8_validation_rejects true
    { prompt := .str "hello", style := .str "vaporwave" }
    (Or.inl (by decide))

/-- Circuit-breaker configuration of `ApiClient` (defaults: threshold 5,
reset time 60000 ms). -/
structure CBConfig where
  circuitBreakerThreshold : ℕ
  circuitBreakerResetTime : ℕ
deriving Repr, DecidableEq

/-- Circuit-breaker fields of `ApiClient` (`part_009` lines 43–45). -/
structure CBState where
  circuitBreakerFailures : ℕ
  circuitBreakerLastFailure : ℕ
  circuitBreakerOpen : Bool
deriving Repr, DecidableEq

def initialCBState : CBState := ⟨0, 0, false⟩

/-- `resetCircuitBreaker` (`part_009` lines 271–278). -/
def resetCircuitBreaker (_s : CBState) : CBState := ⟨0, 0, false⟩

/-- `recordCircuitBreakerFailure` (`part_009` lines 258–269), called with
the current time. -/
def recordCircuitBreakerFailure (cfg : CBConfig) (now : ℕ) (s : CBState) :
    CBState :=
  let f := s.circuitBreakerFailures + 1
  { circuitBreakerFailures := f
    circuitBreakerLastFailure := now
    circuitBreakerOpen :=
      if cfg.circuitBreakerThreshold ≤ f then true
      else s.circuitBreakerOpen }

/-- `isCircuitBreakerOpen` (`part_009` lines 243–256): returns the answer
together with the state, which is reset when the cool-down has elapsed. -/
def isCircuitBreakerOpen (cfg : CBConfig) (now : ℕ) (s : CBState) :
    Bool × CBState :=
  if s.circuitBreakerOpen = false then (false, s)
  else if cfg.circuitBreakerResetTime ≤ now - s.circuitBreakerLastFailure
  then (false, resetCircuitBreaker s)
  else (true, s)

/-- Outcome of one `fetchWithTimeout` attempt: the fetch resolved (with
`response.ok` true or false) or rejected at the network level. -/
inductive AttemptOutcome where
  | resolved (ok : Bool)
  | networkError
deriving Repr, DecidableEq

/-- The retry loop of `request` (`part_009` lines 85–133): a resolved
fetch calls `resetCircuitBreaker` first (line 90, before the
`response.ok` check); a resolved-ok attempt returns success; any other
outcome moves on to the next attempt. -/
def runAttempts (s : CBState) : List AttemptOutcome → Bool × CBState
  | [] => (false, s)
  | .resolved true :: _ => (true, resetCircuitBreaker s)
  | .resolved false :: rest => runAttempts (resetCircuitBreaker s) rest
  | .networkError :: rest => runAttempts s rest

inductive RequestResult where
  | circuitBreakerRejected
  | success
  | failed
deriving Repr, DecidableEq

/-- `ApiClient.request` (`part_009` lines 61–148) at time `now`, given the
outcomes the HTTP layer produces for its attempts: the circuit-breaker
check (a rejected call issues no HTTP attempt), the retry loop, and
`recordCircuitBreakerFailure` when every attempt fails. -/
def request (cfg : CBConfig) (now : ℕ) (s : CBState)
    (attempts : List AttemptOutcome) : RequestResult × CBState :=
  let check := isCircuitBreakerOpen cfg now s
  if check.1 = true then (.circuitBreakerRejected, check.2)
  else
    let r := runAttempts check.2 attempts
    if r.1 = true then (.success, r.2)
    else (.failed, recordCircuitBreakerFailure cfg now r.2)

/-- Folding a trace of `request` calls over the client state. -/
def runRequests (cfg : CBConfig) (s : CBState) :
    List (ℕ × List AttemptOutcome) → CBState
  | [] => s
  | (now, att) :: rest => runRequests cfg (request cfg now s att).2 rest

/-- C9 code-bug evidence: with the default configuration (threshold 5),
five consecutive requests whose every attempt receives an HTTP error
response leave the failure count at 1 and the breaker closed — a sixth
request still goes out to the network — because line 90 resets the
breaker whenever a fetch resolves, before `response.ok` is checked. In
contrast, five consecutive requests failing at the network level do open
the breaker, and a sixth request within the cool-down is rejected with
`CIRCUIT_BREAKER_OPEN` and no HTTP attempt. -/
theorem c9_http_failures_never_open_breaker :
    (let cfg : CBConfig := ⟨5, 60000⟩
     let httpFail : List AttemptOutcome :=
       [.resolved false, .resolved false, .resolved false, .resolved false]
     let netFail : List AttemptOutcome :=
       [.networkError, .networkError, .networkError, .networkError]
     let afterHttp := runRequests cfg initialCBState
       [(1000, httpFail), (2000, httpFail), (3000, httpFail),
        (4000, httpFail), (5000, httpFail)]
     let afterNet := runRequests cfg initialCBState
       [(1000, netFail), (2000, netFail), (3000, netFail),
        (4000, netFail), (5000, netFail)]
     (afterHttp.circuitBreakerOpen = false ∧
      afterHttp.circuitBreakerFailures = 1 ∧
      (request cfg 6000 afterHttp httpFail).1 = .failed) ∧
     (afterNet.circuitBreakerOpen = true ∧
      afterNet.circuitBreakerFailures = 5 ∧
      (request cfg 6000 afterNet netFail).1 = .circuitBreakerRejected ∧
      (request cfg 65001 afterNet netFail).1 = .failed)) := by
  decide
